import Mathlib

/-!
Verification development for the net-cat TCP chat server.

The Go sources are shallowly embedded as Lean definitions:

* `internal/protocol` (state.go, message.go)    → `ConnectionState`, `Message`
* `internal/errors`   (errors.go)               → `ErrorType`, `ClientError`
* `internal/config`   (config.go, part 007)     → `Config`, `defaultConfig`
* `internal/client`   (client.go, auth.go)      → `Client`, `ValidateUsername`, ...
* `internal/server`   (server.go, broadcast.go) → `Server`, `registerClient`, ...
* draft server/client (unnamed parts 001/002/004) → `Client2`, `Server2`, ...

Modelling conventions, stated once:

* Go `time.Time` / `time.Duration` are embedded as `Int` (an abstract tick
  count, think nanoseconds); every call site of `time.Now()` in the source
  becomes an explicit `now : Int` parameter.
* Go strings are embedded as `List Char` where character-level behaviour
  matters (trimming, validation) and as `String` where they are opaque
  payloads.  Go `len(s)` is byte length; `goLen` computes the UTF-8 byte
  length of a `List Char`.
* Go maps are embedded as association lists (`mapInsert` replaces an
  existing binding exactly like Go map assignment); `map[string]bool` used
  as a set is embedded as a duplicate-free `List String` with `setInsert` /
  `setDelete`.
* Go pointers `*client.Client` are modelled by giving each `Client` an
  identity `id : Nat`; an in-place mutation of a client that the server's
  `clients` map references is propagated with `Server.updClient`, which
  rewrites every map entry holding that identity.
* Mutex-guarded critical sections in the source execute atomically, so the
  server is embedded as a transition system whose steps are those critical
  sections; `Reachable` enumerates the mutating operations of
  `internal/server`, `Reachable2` those of the draft server (parts 001/002/004,
  whose accept path is serialized by `handlerReady.Wait()` in `acceptLoop`).
* Closing a Go channel that is already closed panics; `StopOutcome.panicked`
  records that.  A goroutine that re-locks a mutex it already holds
  deadlocks; `StopOutcome.deadlocked` records that.
* Network writes are modelled by recording the strings a call hands to
  `conn.Write`; `Client.connWriteErr` injects a transport failure.
-/

namespace NetCat

/-- Decidable equality for Go-style fallible results. -/
instance {ε α : Type} [DecidableEq ε] [DecidableEq α] : DecidableEq (Except ε α) :=
  fun a b =>
    match a, b with
    | Except.ok x, Except.ok y =>
      if h : x = y then isTrue (congrArg Except.ok h)
      else isFalse (fun hh => h (Except.ok.inj hh))
    | Except.error x, Except.error y =>
      if h : x = y then isTrue (congrArg Except.error h)
      else isFalse (fun hh => h (Except.error.inj hh))
    | Except.ok _, Except.error _ => isFalse (fun hh => Except.noConfusion hh)
    | Except.error _, Except.ok _ => isFalse (fun hh => Except.noConfusion hh)

/-- Connection lifecycle states, from internal/protocol/state.go. -/
inductive ConnectionState where
  | stateConnecting
  | stateAuthenticated
  | stateActive
  | stateDisconnecting
deriving DecidableEq, Repr

/-- Error categories, from internal/errors/errors.go. -/
inductive ErrorType where
  | errConnection
  | errValidation
  | errBroadcast
  | errConcurrency
deriving DecidableEq, Repr

/-- Structured error, from internal/errors/errors.go (`ClientError`).  The
`Client interface\x7b\x7d` diagnostic payload of the source is dropped: no claim
inspects it. -/
structure ClientError where
  type : ErrorType
  message : String
deriving DecidableEq, Repr

/-- A chat message, from internal/protocol/message.go.  `Timestamp` is the
abstract instant captured at construction. -/
structure Message where
  From : String
  Content : String
  Timestamp : Int
deriving DecidableEq, Repr

/-- Message.String() of internal/protocol/message.go: empty content renders
as the empty string, otherwise the bracketed timestamp/sender prefix.  The
wall-clock rendering of the instant (Go layout 2006-01-02 15:04:05) is
abstracted to `toString`; no claim depends on the digits. -/
def Message.toStr (m : Message) : String :=
  if m.Content = "" then ""
  else "[" ++ toString m.Timestamp ++ "][" ++ m.From ++ "]:" ++ m.Content

/-- NewMessage of internal/protocol/message.go with the `time.Now()` call
made explicit. -/
def NewMessage (from_ content : String) (now : Int) : Message :=
  { From := from_, Content := content, Timestamp := now }

/-- SystemMessage of internal/protocol/message.go. -/
def SystemMessage (content : String) (now : Int) : Message :=
  NewMessage "SYSTEM" content now

/-- Server configuration, from internal/config (unnamed part 007). -/
structure Config where
  ListenAddr : String
  MaxClients : Nat
  ClientTimeout : Int
  MessageRateLimit : Int
  MaxMessageSize : Nat
  MaxNameLength : Nat
  MaxNameChanges : Nat
  LogFile : String
deriving DecidableEq, Repr

/-- DefaultConfig of internal/config: durations in abstract ticks
(nanoseconds): 5 minutes and 1 second. -/
def defaultConfig : Config :=
  { ListenAddr := ":8989"
    MaxClients := 10
    ClientTimeout := 300000000000
    MessageRateLimit := 1000000000
    MaxMessageSize := 1024
    MaxNameLength := 32
    MaxNameChanges := 3
    LogFile := "" }

/-- Unicode White_Space code points, the set Go's `unicode.IsSpace` accepts;
`strings.TrimSpace` trims exactly these. -/
def goIsSpace (c : Char) : Bool :=
  (0x9 ≤ c.toNat && c.toNat ≤ 0xD) || c.toNat = 0x20 || c.toNat = 0x85 ||
  c.toNat = 0xA0 || c.toNat = 0x1680 ||
  (0x2000 ≤ c.toNat && c.toNat ≤ 0x200A) ||
  c.toNat = 0x2028 || c.toNat = 0x2029 || c.toNat = 0x202F ||
  c.toNat = 0x205F || c.toNat = 0x3000

/-- strings.TrimSpace: drop leading and trailing White_Space. -/
def goTrimSpace (s : List Char) : List Char :=
  ((s.dropWhile goIsSpace).reverse.dropWhile goIsSpace).reverse

/-- UTF-8 size in bytes of one scalar value, as Go encodes it. -/
def charUtf8Size (c : Char) : Nat :=
  if c.toNat < 0x80 then 1
  else if c.toNat < 0x800 then 2
  else if c.toNat < 0x10000 then 3
  else 4

/-- Go `len(string)`: number of UTF-8 bytes. -/
def goLen (s : List Char) : Nat :=
  (s.map charUtf8Size).sum

/-- The character class ValidateUsername admits: ASCII letters, ASCII
digits, underscore, ASCII space (auth.go lines 81-88). -/
def validNameChar (c : Char) : Bool :=
  ( 'a' ≤ c && c ≤ 'z') || ( 'A' ≤ c && c ≤ 'Z') ||
  ( '0' ≤ c && c ≤ '9') || c = '_' || c = ' '

/-- ValidateUsername of internal/client/auth.go: empty check on the trimmed
form, then trimmed-equals-raw, then byte length, then the character loop
(which reports one fixed message whatever the offending character). -/
def ValidateUsername (name : List Char) (maxLength : Nat) : Except ClientError Unit :=
  let trimmed := goTrimSpace name
  if trimmed.length = 0 then
    Except.error { type := ErrorType.errValidation, message := "username cannot be empty" }
  else if trimmed ≠ name then
    Except.error { type := ErrorType.errValidation,
                   message := "username cannot have leading or trailing spaces" }
  else if maxLength < goLen name then
    Except.error { type := ErrorType.errValidation,
                   message := "username too long (max " ++ toString maxLength ++ " characters)" }
  else if name.all validNameChar then
    Except.ok ()
  else
    Except.error { type := ErrorType.errValidation,
                   message := "username can only contain letters, numbers, spaces, and underscores" }

/-- A connected chat client, from internal/client/client.go.  `id` models
Go pointer identity; `connWriteErr` injects a failure of the underlying
`conn.Write`; `doneClosed` is the one-shot `done` channel; the unused
`msgCount` field of the source is omitted. -/
structure Client where
  id : Nat
  name : String
  state : ConnectionState
  lastActivity : Int
  doneClosed : Bool
  closed : Bool
  nameHistory : List String
  nameChangeCount : Nat
  connWriteErr : Option String
deriving DecidableEq, Repr

/-- client.New of internal/client/client.go, `time.Now()` explicit; the
fresh pointer gets identity `id` and a healthy transport. -/
def Client.new (id : Nat) (now : Int) : Client :=
  { id := id
    name := ""
    state := ConnectionState.stateConnecting
    lastActivity := now
    doneClosed := false
    closed := false
    nameHistory := []
    nameChangeCount := 0
    connWriteErr := none }

/-- Client.SetState. -/
def Client.setState (c : Client) (st : ConnectionState) : Client :=
  { c with state := st }

/-- Client.UpdateActivity, `time.Now()` explicit. -/
def Client.updateActivity (c : Client) (now : Int) : Client :=
  { c with lastActivity := now }

/-- Client.ChangeName of internal/client/client.go: unconditionally pushes
the current name (even the empty pre-authentication name) onto
`nameHistory` and bumps `nameChangeCount`. -/
def Client.changeName (c : Client) (newName : String) : Client :=
  { c with nameHistory := c.nameHistory ++ [c.name]
           name := newName
           nameChangeCount := c.nameChangeCount + 1 }

/-- Client.CanChangeName of internal/client/client.go: the bound is the
literal 3, not `cfg.MaxNameChanges`. -/
def Client.canChangeName (c : Client) : Bool :=
  c.nameChangeCount < 3

/-- Client.Close: idempotent via the one-shot `closed` flag. -/
def Client.close (c : Client) : Client :=
  if c.closed then c else { c with closed := true, doneClosed := true }

/-- Client.Send of internal/client/client.go.  Result: the error returned
to the caller, paired with the list of strings handed to `conn.Write`
(empty when no write was attempted). -/
def Client.send (c : Client) (msg : Message) : Except ClientError Unit × List String :=
  if c.state ≠ ConnectionState.stateActive then
    (Except.error { type := ErrorType.errConnection, message := "client not active" }, [])
  else
    match c.connWriteErr with
    | some e =>
        (Except.error { type := ErrorType.errConnection,
                        message := "failed to send message: " ++ e },
         [msg.toStr ++ "\n"])
    | none => (Except.ok (), [msg.toStr ++ "\n"])

/-- Go map assignment `m[k] = v`: replace the binding if the key exists,
otherwise add it. -/
def mapInsert {α : Type} (m : List (String × α)) (k : String) (v : α) :
    List (String × α) :=
  if m.any (fun p => p.1 = k) then
    m.map (fun p => if p.1 = k then (k, v) else p)
  else
    m ++ [(k, v)]

/-- Go `delete(m, k)`. -/
def mapDelete {α : Type} (m : List (String × α)) (k : String) : List (String × α) :=
  m.filter (fun p => p.1 ≠ k)

/-- The key set of a Go map. -/
def mapKeys {α : Type} (m : List (String × α)) : List String :=
  m.map Prod.fst

/-- The values of a Go map. -/
def mapValues {α : Type} (m : List (String × α)) : List α :=
  m.map Prod.snd

/-- `m[k] = true` on a `map[string]bool` used as a set. -/
def setInsert (s : List String) (k : String) : List String :=
  if k ∈ s then s else s ++ [k]

/-- `delete(m, k)` on a `map[string]bool` used as a set. -/
def setDelete (s : List String) (k : String) : List String :=
  s.filter (fun x => x ≠ k)

/-- Equality of two string lists viewed as sets. -/
def listSetEq (a b : List String) : Bool :=
  a.all (fun x => b.contains x) && b.all (fun x => a.contains x)

/-- The chat server, from internal/server/server.go.  `quitClosed` /
`doneClosed` model the one-shot channels, `lnSet` whether `s.ln` holds a
live listener, `broadcast` the buffered channel's queued contents. -/
structure Server where
  cfg : Config
  quitClosed : Bool
  doneClosed : Bool
  lnSet : Bool
  clients : List (String × Client)
  messages : List Message
  activeNames : List String
  broadcast : List Message
deriving DecidableEq, Repr

/-- server.New of internal/server/server.go. -/
def Server.new (cfg : Config) : Server :=
  { cfg := cfg
    quitClosed := false
    doneClosed := false
    lnSet := false
    clients := []
    messages := []
    activeNames := []
    broadcast := [] }

/-- The successful `net.Listen` assignment `s.ln = ln` performed by
Server.Start before the accept loop. -/
def Server.startNet (s : Server) : Server :=
  { s with lnSet := true }

/-- Propagate an in-place mutation of the pointer `c`: every `clients`
entry holding that identity now shows the new value. -/
def Server.updClient (s : Server) (c : Client) : Server :=
  { s with clients := s.clients.map (fun p => if p.2.id = c.id then (p.1, c) else p) }

/-- A send on the buffered broadcast channel (capacity 1000; the model
keeps the queue unbounded, claims never fill it). -/
def enqueueBroadcast (s : Server) (m : Message) : Server :=
  { s with broadcast := s.broadcast ++ [m] }

/-- broadcastSystemMessage of server.go, `time.Now()` explicit. -/
def broadcastSystemMessage (s : Server) (text : String) (now : Int) : Server :=
  enqueueBroadcast s (SystemMessage text now)

/-- registerClient of internal/server/server.go: capacity check, name
check, then `c.ChangeName(name)`, `c.SetState(StateAuthenticated)`,
`s.clients[c.Name()] = c`, `s.activeNames[name] = true`, all under
clientsMu and activeNamesMu. -/
def registerClient (s : Server) (c : Client) (name : String) :
    Except ClientError (Server × Client) :=
  if s.cfg.MaxClients ≤ s.clients.length then
    Except.error { type := ErrorType.errConnection, message := "server is full" }
  else if s.activeNames.contains name then
    Except.error { type := ErrorType.errValidation, message := "username already taken" }
  else
    let c1 := (c.changeName name).setState ConnectionState.stateAuthenticated
    let s1 := s.updClient c1
    Except.ok
      ({ s1 with clients := mapInsert s1.clients c1.name c1
                 activeNames := setInsert s1.activeNames name }, c1)

/-- disconnectClient of internal/server/server.go: set Disconnecting,
delete the client's *current* name from both maps, close the connection,
then (for a non-empty reason) post a system farewell. -/
def disconnectClient (s : Server) (c : Client) (reason : String) (now : Int) :
    Server × Client :=
  let c1 := c.setState ConnectionState.stateDisconnecting
  let s1 := s.updClient c1
  let s2 := { s1 with clients := mapDelete s1.clients c1.name }
  let s3 := { s2 with activeNames := setDelete s2.activeNames c1.name }
  let c2 := c1.close
  let s4 := s3.updClient c2
  let s5 := if reason ≠ "" then
              broadcastSystemMessage s4 (c2.name ++ " " ++ reason) now
            else s4
  (s5, c2)

/-- handleNameChange of internal/server/broadcast.go (lines 120-144): limit
check, validation, collision check, then it deletes the old name and
inserts the new one in `activeNames` only — the `clients` map is touched
solely through the aliased pointer mutation `c.ChangeName(newName)` — and
posts the rename announcement. -/
def handleNameChange (s : Server) (c : Client) (newName : List Char) (now : Int) :
    Except String (Server × Client) :=
  if ¬ c.canChangeName then
    Except.error "maximum name changes exceeded"
  else
    match ValidateUsername newName s.cfg.MaxNameLength with
    | Except.error e => Except.error e.message
    | Except.ok _ =>
      let newNameStr := String.mk newName
      if s.activeNames.contains newNameStr then
        Except.error "username already taken"
      else
        let oldName := c.name
        let s1 := { s with activeNames :=
                     setInsert (setDelete s.activeNames oldName) newNameStr }
        let c1 := c.changeName newNameStr
        let s2 := s1.updClient c1
        Except.ok
          (broadcastSystemMessage s2
            (oldName ++ " has changed their name to " ++ newNameStr) now, c1)

/-- sendMessageHistory of internal/server/server.go: send each stored
message in order, stopping at the first Send error; the result is every
string actually handed to the client's `conn.Write`. -/
def sendMessageHistory (c : Client) : List Message → List String
  | [] => []
  | m :: rest =>
    match c.send m with
    | (Except.ok _, w) => w ++ sendMessageHistory c rest
    | (Except.error _, w) => w

/-- The recipient selection of broadcastLoop in internal/server/broadcast.go
(lines 30-42): every Active client whose name differs from the message's
From — with no special case for SYSTEM senders. -/
def recipientsInternal (clients : List (String × Client)) (m : Message) : List Client :=
  (mapValues clients).filter
    (fun c => c.state = ConnectionState.stateActive && c.name ≠ m.From)

/-- One iteration of broadcastLoop of internal/server/broadcast.go: dequeue
the next message and append it to the transcript.  The concurrent fan-out
writes (`recipientsInternal`) and the log append do not mutate the server;
failed sends are only logged in this version. -/
def broadcastStep (s : Server) : Server :=
  match s.broadcast with
  | [] => s
  | m :: rest => { s with broadcast := rest, messages := s.messages ++ [m] }

/-- Outcome of internal Server.Stop: closing an already-closed channel
panics; calling it before Start dereferences a nil listener; a non-empty
clients map self-deadlocks, because Stop holds clientsMu while
disconnectClient re-acquires it. -/
inductive StopOutcome where
  | panicked
  | deadlocked
  | returned (s : Server)
deriving DecidableEq, Repr

/-- Stop of internal/server/server.go: `close(s.quit); close(s.done)`
first (a second call therefore closes closed channels), then
`s.ln.Close()`, then the disconnect loop under clientsMu. -/
def Server.stop (s : Server) : StopOutcome :=
  if s.quitClosed || s.doneClosed then StopOutcome.panicked
  else if ¬ s.lnSet then StopOutcome.panicked
  else if s.clients ≠ [] then StopOutcome.deadlocked
  else StopOutcome.returned { s with quitClosed := true, doneClosed := true }

/-- Two consecutive calls of internal Server.Stop. -/
def stopTwice (s : Server) : StopOutcome :=
  match s.stop with
  | StopOutcome.returned s1 => s1.stop
  | o => o

/-- Outcome of one non-empty input line in handleClientMessages of
internal/server/broadcast.go.  Rate-limit, size and name-change errors
leave server and client unchanged and send the recorded text to the sender
only. -/
inductive LineResult where
  | emptySkip
  | nameChangeOk (s : Server) (c : Client)
  | nameChangeErr (s : Server) (c : Client) (errText : String)
  | rateLimited (errText : String)
  | tooLong (errText : String)
  | broadcasted (s : Server) (c : Client) (m : Message)
deriving DecidableEq, Repr

/-- The per-line body of handleClientMessages in
internal/server/broadcast.go (lines 76-116): trim; skip empty; a line
starting with the 6 characters of the slash-name command is handled by
`handleNameChange`; then the rate check compares `time.Since(c.LastActivity())`
with MessageRateLimit; then the size check; then the message is enqueued
and `c.UpdateActivity()` runs. -/
def handleLineInternal (s : Server) (c : Client) (line : List Char) (now : Int) :
    LineResult :=
  let message := goTrimSpace line
  if message.length = 0 then LineResult.emptySkip
  else if ("/name ".toList).isPrefixOf message then
    let newName := goTrimSpace (message.drop 6)
    match handleNameChange s c newName now with
    | Except.ok (s1, c1) => LineResult.nameChangeOk s1 c1
    | Except.error e => LineResult.nameChangeErr s c ("Error changing name: " ++ e)
  else if now - c.lastActivity < s.cfg.MessageRateLimit then
    LineResult.rateLimited "Message rate limit exceeded. Please wait."
  else if s.cfg.MaxMessageSize < goLen message then
    LineResult.tooLong ("Message too long. Maximum length is " ++
      toString s.cfg.MaxMessageSize ++ " characters.")
  else
    let msg := NewMessage c.name (String.mk message) now
    LineResult.broadcasted (enqueueBroadcast s msg) (c.updateActivity now) msg

/-- Reachable states of the internal/server transition system.  Each step
is one mutex-guarded critical section of the source; `registerOk` and
`nameChangeOk` fire only when the corresponding function succeeds.
`setActive` and `touch` are the pointer writes `c.SetState(StateActive)` /
`c.UpdateActivity()` performed by handleClientMessages, seen through the
registry. -/
inductive Reachable : Server → Prop where
  | init (cfg : Config) : Reachable (Server.new cfg)
  | startNet {s : Server} : Reachable s → Reachable s.startNet
  | registerOk {s : Server} {c : Client} {name : String} {s1 : Server} {c1 : Client} :
      Reachable s → registerClient s c name = Except.ok (s1, c1) → Reachable s1
  | disconnect {s : Server} (c : Client) (reason : String) (now : Int) :
      Reachable s → Reachable (disconnectClient s c reason now).1
  | nameChangeOk {s : Server} {c : Client} {n : List Char} {now : Int}
      {s1 : Server} {c1 : Client} :
      Reachable s → handleNameChange s c n now = Except.ok (s1, c1) → Reachable s1
  | enqueue {s : Server} (m : Message) : Reachable s → Reachable (enqueueBroadcast s m)
  | dequeue {s : Server} : Reachable s → Reachable (broadcastStep s)
  | stopOk {s s1 : Server} : Reachable s → s.stop = StopOutcome.returned s1 → Reachable s1
  | setActive {s : Server} (c : Client) :
      Reachable s → Reachable (s.updClient (c.setState ConnectionState.stateActive))
  | touch {s : Server} (c : Client) (now : Int) :
      Reachable s → Reachable (s.updClient (c.updateActivity now))

/-- The draft chat client of unnamed part 001.  Same pointer-identity
convention as `Client`; the draft has no `nameChangeCount` field and no
rate-limit clock on the client. -/
structure Client2 where
  id : Nat
  name : String
  state : ConnectionState
  activity : Int
  doneClosed : Bool
  closed : Bool
  nameHistory : List String
  connWriteErr : Option String
deriving DecidableEq, Repr

/-- client.New of part 001. -/
def Client2.new (id : Nat) (now : Int) : Client2 :=
  { id := id
    name := ""
    state := ConnectionState.stateConnecting
    activity := now
    doneClosed := false
    closed := false
    nameHistory := []
    connWriteErr := none }

/-- Client.SetState of part 001. -/
def Client2.setState (c : Client2) (st : ConnectionState) : Client2 :=
  { c with state := st }

/-- Client.ChangeName of part 001: the empty pre-authentication name is
*not* pushed onto the history. -/
def Client2.changeName (c : Client2) (newName : String) : Client2 :=
  { c with nameHistory := if c.name ≠ "" then c.nameHistory ++ [c.name] else c.nameHistory
           name := newName }

/-- Client.CanChangeName of part 001: bound is the unexported
`maxNameChanges = 2` constant (the exported `MaxNameChanges = 5` is
unused). -/
def Client2.canChangeName (c : Client2) : Bool :=
  c.nameHistory.length < 2

/-- Client.Close of part 001: idempotent one-shot. -/
def Client2.close (c : Client2) : Client2 :=
  if c.closed then c else { c with closed := true, doneClosed := true }

/-- Client.Send of part 001: requires Active, then writes
`%s[%s][%s]:%s\n` (timestamp, message sender, own name, content). -/
def Client2.send (c : Client2) (msg : Message) : Except String Unit × List String :=
  if c.state ≠ ConnectionState.stateActive then
    (Except.error "client not in active state", [])
  else
    let wire := toString msg.Timestamp ++ "[" ++ msg.From ++ "][" ++ c.name ++ "]:" ++
      msg.Content ++ "\n"
    match c.connWriteErr with
    | some e => (Except.error e, [wire])
    | none => (Except.ok (), [wire])

/-- The draft server of unnamed part 002.  `doneNil` models `s.done = nil`
after Stop; `isRunning` the double-start/double-stop guard. -/
structure Server2 where
  cfg : Config
  isRunning : Bool
  doneNil : Bool
  doneClosed : Bool
  lnSet : Bool
  clients : List (String × Client2)
  messages : List Message
  activeNames : List String
  broadcast : List Message
deriving DecidableEq, Repr

/-- New of part 002 (lines 296-305). -/
def Server2.new (cfg : Config) : Server2 :=
  { cfg := cfg
    isRunning := false
    doneNil := false
    doneClosed := false
    lnSet := false
    clients := []
    messages := []
    activeNames := []
    broadcast := [] }

/-- Start of part 002 (lines 307-340): double-start fails, otherwise the
done channel is remade if nil, `isRunning` is set and the listener opened
(listen success assumed). -/
def Server2.start (s : Server2) : Except String Server2 :=
  if s.isRunning then
    Except.error "server is already running"
  else
    Except.ok { s with isRunning := true
                       lnSet := true
                       doneNil := false
                       doneClosed := if s.doneNil then false else s.doneClosed }

/-- Stop of part 002 (lines 342-407): a call on a non-running server
returns nil immediately with no state change; otherwise it clears the
running flag, closes and nils the done channel, closes and nils the
listener, closes every client connection, and finally clears both
registries. -/
def Server2.stop (s : Server2) : Server2 × Option String :=
  if ¬ s.isRunning then (s, none)
  else
    ({ s with isRunning := false
              doneClosed := true
              doneNil := true
              lnSet := false
              clients := []
              activeNames := [] }, none)

/-- Propagate an in-place mutation of the draft pointer `c` through the
draft registry. -/
def updClient2 (s : Server2) (c : Client2) : Server2 :=
  { s with clients := s.clients.map (fun p => if p.2.id = c.id then (p.1, c) else p) }

/-- A send on the draft broadcast channel (capacity 100). -/
def enqueueBroadcast2 (s : Server2) (m : Message) : Server2 :=
  { s with broadcast := s.broadcast ++ [m] }

/-- registerClient of part 002 (lines 557-572): name-collision check and
insertion into both registries — no capacity check here. -/
def registerClient2 (s : Server2) (c : Client2) (name : String) :
    Except String (Server2 × Client2) :=
  if s.activeNames.contains name then
    Except.error ("name already in use: " ++ name)
  else
    Except.ok ({ s with activeNames := setInsert s.activeNames name
                        clients := mapInsert s.clients name c }, c)

/-- One accepted connection as the part 002 acceptLoop (lines 455-499)
processes it.  `acceptLoop` waits for the spawned handler via
`handlerReady.Wait()` before accepting again, so accept, capacity check
(skipped when MaxClients = 0), authentication (`authResult` is the name
it returns, or none on failure), `SetState(StateActive)`,
`ChangeName(name)` and registration form one serialized step. -/
def acceptAndHandle2 (s : Server2) (c : Client2) (authResult : Option String) : Server2 :=
  if 0 < s.cfg.MaxClients ∧ s.cfg.MaxClients ≤ s.clients.length then s
  else
    match authResult with
    | none => s
    | some name =>
      let c1 := (c.setState ConnectionState.stateActive).changeName name
      match registerClient2 s c1 name with
      | Except.ok (s1, _) => s1
      | Except.error _ => s

/-- disconnectClient of part 002 (lines 574-598): Disconnecting, close,
delete the current name from both registries, then a farewell
`<name> has <reason>` system message. -/
def disconnectClient2 (s : Server2) (c : Client2) (reason : String) (now : Int) :
    Server2 × Client2 :=
  let c1 := (c.setState ConnectionState.stateDisconnecting).close
  let s1 := updClient2 s c1
  let s2 := { s1 with clients := mapDelete s1.clients c1.name
                      activeNames := setDelete s1.activeNames c1.name }
  (enqueueBroadcast2 s2 (SystemMessage (c1.name ++ " has " ++ reason) now), c1)

/-- One tick of cleanInactiveConnections of part 002 (lines 409-453):
remove every Active client whose inactivity exceeds ClientTimeout from
both registries, then post one `<name> has timeout` per victim. -/
def cleanInactiveStep2 (s : Server2) (now : Int) : Server2 :=
  let expired := fun (p : String × Client2) =>
    p.2.state = ConnectionState.stateActive && s.cfg.ClientTimeout < now - p.2.activity
  let victims := s.clients.filter expired
  let s1 := { s with clients := s.clients.filter (fun p => ¬ expired p)
                     activeNames :=
                       s.activeNames.filter (fun n => ¬ victims.any (fun p => p.1 = n)) }
  victims.foldl
    (fun acc p => enqueueBroadcast2 acc (SystemMessage (p.1 ++ " has timeout") now)) s1

/-- handleNameChange of unnamed part 004 (lines 274-315): limit check
(draft client bound), validation, collision check, then — under both
locks — delete the old name from both registries and insert the new one
in both, and post the rename announcement. -/
def handleNameChange2 (s : Server2) (c : Client2) (newName : List Char) (now : Int) :
    Except String (Server2 × Client2) :=
  if ¬ c.canChangeName then
    Except.error "maximum name changes exceeded"
  else
    match ValidateUsername newName s.cfg.MaxNameLength with
    | Except.error e => Except.error ("invalid name: " ++ e.message)
    | Except.ok _ =>
      let n := String.mk newName
      if s.activeNames.contains n then
        Except.error "username already taken"
      else
        let oldName := c.name
        let c1 := c.changeName n
        let s1 := { s with activeNames := setInsert (setDelete s.activeNames oldName) n }
        let s2 := { s1 with clients := mapInsert (mapDelete s1.clients oldName) n c1 }
        Except.ok
          (enqueueBroadcast2 s2
            (SystemMessage (oldName ++ " changed their name to " ++ n) now), c1)

/-- The recipient selection of broadcastLoop in unnamed part 004 (lines
52-63): every Active client, excluding the sender by name only for
non-SYSTEM messages. -/
def recipients2 (clients : List (String × Client2)) (m : Message) : List Client2 :=
  (mapValues clients).filter
    (fun c => c.state = ConnectionState.stateActive &&
      (m.From = "SYSTEM" || c.name ≠ m.From))

/-- One dequeue of broadcastLoop in part 004: append to the transcript;
fan-out targets are `recipients2`. -/
def broadcastStep2 (s : Server2) : Server2 :=
  match s.broadcast with
  | [] => s
  | m :: rest => { s with broadcast := rest, messages := s.messages ++ [m] }

/-- The rate-limit clock initialization of handleClientMessages in part
004 (line 126): `lastMessageTime := time.Now().Add(-s.cfg.MessageRateLimit)`. -/
def lastMessageInit (cfg : Config) (now : Int) : Int :=
  now - cfg.MessageRateLimit

/-- Outcome of one non-empty input line in handleClientMessages of part
004; each constructor carries the `lastMessageTime` value after the line. -/
inductive LineResult2 where
  | emptySkip (last : Int)
  | rateLimited (remaining : Int) (last : Int)
  | tooLong (last : Int)
  | nameFormatErr (errText : String) (last : Int)
  | nameChangeOk (s : Server2) (c : Client2) (last : Int)
  | nameChangeErr (errText : String) (last : Int)
  | broadcasted (s : Server2) (m : Message) (last : Int)
deriving DecidableEq, Repr

/-- strings.Fields: split around runs of White_Space. -/
def goFieldsAux : List Char → List Char → List (List Char)
  | [], acc => if acc.isEmpty then [] else [acc.reverse]
  | ch :: rest, acc =>
    if goIsSpace ch then
      if acc.isEmpty then goFieldsAux rest []
      else acc.reverse :: goFieldsAux rest []
    else goFieldsAux rest (ch :: acc)

/-- strings.Fields. -/
def goFields (s : List Char) : List (List Char) :=
  goFieldsAux s []

/-- The per-line body of handleClientMessages of part 004 (lines 137-236):
trim; skip empty; rate check against `lastMessageTime` with the remaining
wait reported to the sender; size check; only then `lastMessageTime = now`;
then the slash-name command (argument-count and forbidden-character checks
before `handleNameChange2`), else enqueue the message. -/
def handleLine2 (s : Server2) (c : Client2) (lastMessageTime : Int)
    (line : List Char) (now : Int) : LineResult2 :=
  let message := goTrimSpace line
  if message.length = 0 then LineResult2.emptySkip lastMessageTime
  else if now - lastMessageTime < s.cfg.MessageRateLimit then
    LineResult2.rateLimited (s.cfg.MessageRateLimit - (now - lastMessageTime))
      lastMessageTime
  else if s.cfg.MaxMessageSize < goLen message then
    LineResult2.tooLong lastMessageTime
  else if ("/name".toList).isPrefixOf message then
    match goFields message with
    | [_, p2] =>
      let newName := goTrimSpace p2
      if newName.isEmpty then
        LineResult2.nameFormatErr "error changing name: invalid name format" now
      else if newName.any (fun ch => ("/\\:*?\"<>|".toList).contains ch) then
        LineResult2.nameFormatErr "error changing name: invalid characters in name" now
      else
        match handleNameChange2 s c newName now with
        | Except.ok (s1, c1) => LineResult2.nameChangeOk s1 c1 now
        | Except.error e => LineResult2.nameChangeErr e now
    | _ => LineResult2.nameFormatErr "error changing name: invalid name format" now
  else
    let msg : Message := { From := c.name, Content := String.mk message, Timestamp := now }
    LineResult2.broadcasted (enqueueBroadcast2 s msg) msg now

/-- sendMessageHistory of part 002 (lines 600-612): snapshot under the
read lock, then send each message in order, stopping at the first error;
the result is every string handed to `conn.Write`. -/
def sendMessageHistory2 (c : Client2) : List Message → List String
  | [] => []
  | m :: rest =>
    match c.send m with
    | (Except.ok _, w) => w ++ sendMessageHistory2 c rest
    | (Except.error _, w) => w

/-- Reachable states of the draft (parts 001/002/004) transition system.
`nameChangeOk2` requires the acting client to sit in the registry under
its current name, which the draft's call sites guarantee. -/
inductive Reachable2 : Server2 → Prop where
  | init (cfg : Config) : Reachable2 (Server2.new cfg)
  | startOk {s s1 : Server2} : Reachable2 s → s.start = Except.ok s1 → Reachable2 s1
  | accept {s : Server2} (c : Client2) (authResult : Option String) :
      Reachable2 s → Reachable2 (acceptAndHandle2 s c authResult)
  | disconnect {s : Server2} (c : Client2) (reason : String) (now : Int) :
      Reachable2 s → Reachable2 (disconnectClient2 s c reason now).1
  | clean {s : Server2} (now : Int) : Reachable2 s → Reachable2 (cleanInactiveStep2 s now)
  | nameChangeOk2 {s : Server2} {c : Client2} {n : List Char} {now : Int}
      {s1 : Server2} {c1 : Client2} :
      Reachable2 s → (c.name, c) ∈ s.clients →
      handleNameChange2 s c n now = Except.ok (s1, c1) → Reachable2 s1
  | enqueue {s : Server2} (m : Message) : Reachable2 s → Reachable2 (enqueueBroadcast2 s m)
  | dequeue {s : Server2} : Reachable2 s → Reachable2 (broadcastStep2 s)
  | stop {s : Server2} : Reachable2 s → Reachable2 (s.stop).1

/-- The display names of sessions in the registry whose state is
Authenticated or Active. -/
def namesOfAuthActive (s : Server) : List String :=
  (mapValues s.clients).filterMap
    (fun c =>
      if c.state = ConnectionState.stateAuthenticated ∨
         c.state = ConnectionState.stateActive then some c.name else none)

/-- Decidable form of the registry-consistency invariant: activeNames
equals, as a set, both the names of Authenticated/Active sessions and the
key set of the clients map. -/
def registryConsistentB (s : Server) : Bool :=
  listSetEq s.activeNames (namesOfAuthActive s) &&
  listSetEq s.activeNames (mapKeys s.clients)

/-- Modelled from the spec: the recipient set the fan-out claim asserts —
all Active sessions except, for non-SYSTEM messages, the session whose
name equals the message's From; messages from SYSTEM go to every Active
session. -/
def specRecipients (clients : List (String × Client)) (m : Message) : List Client :=
  (mapValues clients).filter
    (fun c => c.state = ConnectionState.stateActive &&
      (m.From = "SYSTEM" || c.name ≠ m.From))

/-- registerClient, keeping the old state on error (handleConnection
closes the connection and registers nothing in that case). -/
def tryRegister (s : Server) (c : Client) (name : String) : Server × Client :=
  match registerClient s c name with
  | Except.ok p => p
  | Except.error _ => (s, c)

/-- handleNameChange, keeping the old state on error (the error is only
echoed to the sender in that case). -/
def tryRename (s : Server) (c : Client) (n : List Char) (now : Int) : Server × Client :=
  match handleNameChange s c n now with
  | Except.ok p => p
  | Except.error _ => (s, c)

/-- Scenario A: Alice registers on a fresh server... -/
def regA : Server × Client :=
  tryRegister (Server.new defaultConfig) (Client.new 1 0) "Alice"

/-- ...her handler marks her Active (pointer write seen by the registry)... -/
def cliA : Client :=
  (regA.2).setState ConnectionState.stateActive

/-- ...giving the one-Active-client server state... -/
def srvA : Server :=
  (regA.1).updClient cliA

/-- ...and she then renames herself to Bob via the internal
handleNameChange. -/
def renA : Server × Client :=
  tryRename srvA cliA ("Bob".toList) 50

/-- Scenario B: a fresh server processes one broadcast (Alice's join
announcement), so the transcript is non-empty... -/
def srvB : Server :=
  broadcastStep (broadcastSystemMessage (Server.new defaultConfig)
    "Alice has joined our chat..." 100)

/-- ...and then Bob registers, which leaves him in state Authenticated. -/
def regB : Server × Client :=
  tryRegister srvB (Client.new 2 200) "Bob"

/-- A draft client as part 002's handleConnection prepares it before
registration: Active first, then named. -/
def cliB2 : Client2 :=
  ((Client2.new 4 200).setState ConnectionState.stateActive).changeName "Bob"

/-- Scenario S: a client registers under the name SYSTEM on a fresh
server (nothing in the code forbids it)... -/
def regS : Server × Client :=
  tryRegister (Server.new defaultConfig) (Client.new 11 0) "SYSTEM"

/-- ...its handler marks it Active... -/
def cliS : Client :=
  (regS.2).setState ConnectionState.stateActive

/-- ...then Bob registers too and goes Active, giving two Active sessions
one of which is named SYSTEM. -/
def srvS : Server :=
  let s1 := (regS.1).updClient cliS
  let p := tryRegister s1 (Client.new 12 0) "Bob"
  (p.1).updClient ((p.2).setState ConnectionState.stateActive)

/-- A server-generated announcement fanning out over scenario S. -/
def msgS : Message :=
  SystemMessage "server maintenance notice" 300

/-- Scenario C (name-change budget): Charlie registers and goes Active... -/
def regC : Server × Client :=
  tryRegister (Server.new defaultConfig) (Client.new 6 0) "Charlie"

/-- ...as seen by his message handler... -/
def cliC : Client :=
  (regC.2).setState ConnectionState.stateActive

/-- ...on this server state... -/
def srvC : Server :=
  (regC.1).updClient cliC

/-- ...then he renames to Bob (first slash-name), ... -/
def renC1 : Server × Client :=
  tryRename srvC cliC ("Bob".toList) 10

/-- ...and to Carol (second slash-name). -/
def renC2 : Server × Client :=
  tryRename renC1.1 renC1.2 ("Carol".toList) 20

/-- The draft server after its accept loop admits Alice (part 002 flow). -/
def srvD : Server2 :=
  acceptAndHandle2 (Server2.new defaultConfig) (Client2.new 5 0) (some "Alice")

/-- The pointer value part 002's handleConnection holds for Alice after
admission: Active, named, activity clock from `client.New`. -/
def cliD : Client2 :=
  ((Client2.new 5 0).setState ConnectionState.stateActive).changeName "Alice"

/-- The draft server once started (part 002 Start succeeded). -/
def srvE : Server2 :=
  match (Server2.new defaultConfig).start with
  | Except.ok s => s
  | Except.error _ => Server2.new defaultConfig

/-- Does an internal line outcome report a rate-limit rejection? -/
def LineResult.isRateLimited : LineResult → Bool
  | LineResult.rateLimited _ => true
  | _ => false

/-- Does a draft line outcome report a rate-limit rejection? -/
def LineResult2.isRateLimited : LineResult2 → Bool
  | LineResult2.rateLimited _ _ => true
  | _ => false

/-- Did a draft line outcome enqueue the message? -/
def LineResult2.isBroadcasted : LineResult2 → Bool
  | LineResult2.broadcasted _ _ _ => true
  | _ => false

/-- Did internal Stop return normally? -/
def StopOutcome.isReturned : StopOutcome → Bool
  | StopOutcome.returned _ => true
  | _ => false

/-- Claim C1, code bug.  The claim says every registering, renaming or
removing operation preserves the equality between activeNames and the key
set of the clients map.  It fails at handleNameChange of
internal/server/broadcast.go: with one registered Active session named
Alice the rename to Bob succeeds, after which activeNames is exactly
the set containing Bob while the clients map is still keyed by Alice, and
the subsequent disconnect (which deletes the *current* name Bob) leaves
the stale Alice entry in the registry forever. -/
theorem c1_rename_breaks_registry_consistency :
    registryConsistentB srvA = true ∧
    handleNameChange srvA cliA ("Bob".toList) 50 = Except.ok (renA.1, renA.2) ∧
    (renA.1).activeNames = ["Bob"] ∧
    mapKeys (renA.1).clients = ["Alice"] ∧
    registryConsistentB (renA.1) = false ∧
    mapKeys ((disconnectClient (renA.1) (renA.2) "left our chat..." 60).1).clients
      = ["Alice"] := by
  decide

/-- Claim C2, code bug.  The claim says sendMessageHistory delivers every
stored message to a just-registered client.  In internal/server,
handleConnection calls sendMessageHistory while the client is still in
state Authenticated (handleClientMessages only later sets Active), and
Client.Send refuses any state other than Active, so with a non-empty
transcript the just-registered Bob receives nothing: every Send returns
the "client not active" connection error.  The draft flow (part 002) sets
Active before registering, and there the same history is delivered. -/
theorem c2_history_replay_never_delivered :
    (regB.1).messages = [SystemMessage "Alice has joined our chat..." 100] ∧
    (regB.2).state = ConnectionState.stateAuthenticated ∧
    sendMessageHistory regB.2 (regB.1).messages = [] ∧
    ((regB.2).send (SystemMessage "Alice has joined our chat..." 100)).1 =
      Except.error { type := ErrorType.errConnection, message := "client not active" } ∧
    sendMessageHistory2 cliB2 [SystemMessage "Alice has joined our chat..." 100] =
      ["100[SYSTEM][Bob]:Alice has joined our chat...\n"] := by
  decide

/-- Claim C4, code bug.  The claim says the rate-limit clock is
initialized to now minus MessageRateLimit so a session's first message is
never throttled.  That describes part 004 (`lastMessageInit`), and there a
first message half the window after admission is accepted, a message
exactly MessageRateLimit after the previous one is accepted, and one
strictly less is rejected.  The internal/server handler instead compares
against `lastActivity`, which client.New initializes to the creation
instant, so the same first message (sent half a window after the client
object was created) is rejected with the rate-limit error. -/
theorem c4_first_message_throttled_in_internal_handler :
    LineResult.isRateLimited (handleLineInternal srvA cliA ("hi".toList) 500000000)
      = true ∧
    cliA.lastActivity = 0 ∧
    lastMessageInit defaultConfig 0 = -1000000000 ∧
    LineResult2.isBroadcasted
      (handleLine2 srvD cliD (lastMessageInit defaultConfig 0) ("hi".toList) 500000000)
      = true ∧
    LineResult2.isBroadcasted (handleLine2 srvD cliD 0 ("hi".toList) 1000000000)
      = true ∧
    LineResult2.isRateLimited (handleLine2 srvD cliD 0 ("hi".toList) 999999999)
      = true := by
  decide

/-- Claim C5, code bug.  The claim says the first MaxNameChanges (= 3)
slash-name requests succeed and registration does not consume a name
change.  In internal/client, ChangeName unconditionally records even the
empty pre-authentication name — the repository's own TestChangeName
(client_test.go) asserts the opposite, expecting one history entry after
two calls — and registerClient reaches authentication through that same
ChangeName, so a freshly registered client already has nameChangeCount 1;
only two slash-name requests then succeed and the third (the
MaxNameChanges-th) is rejected with "maximum name changes exceeded". -/
theorem c5_registration_consumes_a_name_change :
    (((Client.new 7 0).changeName "original").changeName "newname").nameHistory
      = ["", "original"] ∧
    (regC.2).nameChangeCount = 1 ∧
    (handleNameChange srvC cliC ("Bob".toList) 10).isOk = true ∧
    (handleNameChange renC1.1 renC1.2 ("Carol".toList) 20).isOk = true ∧
    (renC2.2).nameChangeCount = 3 ∧
    Client.canChangeName (renC2.2) = false ∧
    handleNameChange renC2.1 renC2.2 ("Dave".toList) 30 =
      Except.error "maximum name changes exceeded" ∧
    defaultConfig.MaxNameChanges = 3 := by
  decide

/-- Claim C7, code bug.  The claim says a second Stop on a started server
is a no-op that never panics.  Stop of internal/server/server.go begins
with `close(s.quit); close(s.done)`, so its second call closes
already-closed channels and panics (shown on a started server with no
clients, where the first Stop returns normally).  The draft Stop (part
002) checks `isRunning` first and a second call there really is a no-op
returning nil. -/
theorem c7_second_stop_panics :
    StopOutcome.isReturned ((Server.new defaultConfig).startNet).stop = true ∧
    stopTwice ((Server.new defaultConfig).startNet) = StopOutcome.panicked ∧
    Server2.stop (Server2.stop srvE).1 = ((Server2.stop srvE).1, none) := by
  decide

/-- Claim C3, counterexample.  With two Active sessions, one registered
under the name SYSTEM, a SYSTEM announcement is claimed to reach both;
the dispatcher of internal/server/broadcast.go excludes any session whose
name equals the message's From with no SYSTEM special case, so its
recipient set omits the SYSTEM-named session. -/
theorem c3_system_named_session_excluded_internally :
    cliS.state = ConnectionState.stateActive ∧
    msgS.From = "SYSTEM" ∧
    (specRecipients srvS.clients msgS).any (fun c => c.name = "SYSTEM") = true ∧
    (recipientsInternal srvS.clients msgS).any (fun c => c.name = "SYSTEM") = false ∧
    recipientsInternal srvS.clients msgS ≠ specRecipients srvS.clients msgS := by
  decide

/-- Claim C3 as amended: the part 004 dispatcher selects exactly the
claimed recipient set — Active sessions, excluding the session whose name
equals the message's From only for non-SYSTEM messages — while the
internal/server dispatcher excludes any Active session whose name equals
the message's From even when From is SYSTEM. -/
theorem c3_recipient_set_characterization :
    (∀ (clients : List (String × Client)) (m : Message) (c : Client),
      c ∈ recipientsInternal clients m ↔
        c ∈ mapValues clients ∧ c.state = ConnectionState.stateActive ∧
          c.name ≠ m.From) ∧
    (∀ (clients : List (String × Client2)) (m : Message) (c : Client2),
      c ∈ recipients2 clients m ↔
        c ∈ mapValues clients ∧ c.state = ConnectionState.stateActive ∧
          (m.From = "SYSTEM" ∨ c.name ≠ m.From)) := by
  constructor
  · intro clients m c
    simp [recipientsInternal, List.mem_filter, and_assoc]
  · intro clients m c
    simp [recipients2, List.mem_filter, and_assoc]

/-- Claim C9, counterexample.  The claim says SYSTEM never occupies
activeNames in any reachable state; but ValidateUsername accepts the name
SYSTEM and registerClient has no reservation check, so a fresh client
authenticating as SYSTEM reaches a state whose activeNames contains
SYSTEM. -/
theorem c9_system_name_reachable_in_registry :
    ValidateUsername ("SYSTEM".toList) defaultConfig.MaxNameLength = Except.ok () ∧
    Reachable (regS.1) ∧
    (regS.1).activeNames = ["SYSTEM"] := by
  refine ⟨by decide, ?_, by decide⟩
  exact @Reachable.registerOk (Server.new defaultConfig) (Client.new 11 0) "SYSTEM"
    (regS.1) (regS.2) (Reachable.init defaultConfig) (by decide)

/-- Claim C9 as amended: nothing in the code reserves the name SYSTEM —
a client can authenticate as SYSTEM whenever that name is unused and the
server has a free slot, after which SYSTEM occupies activeNames like any
other name; SYSTEM is only the conventional From of server-generated
announcements. -/
theorem c9_system_name_not_reserved (s : Server) (c : Client)
    (hfree : s.clients.length < s.cfg.MaxClients)
    (hunused : "SYSTEM" ∉ s.activeNames) :
    (registerClient s c "SYSTEM").isOk = true ∧
    "SYSTEM" ∈ (tryRegister s c "SYSTEM").1.activeNames := by
  have h1 : ¬ (s.cfg.MaxClients ≤ s.clients.length) := Nat.not_le.mpr hfree
  have h2 : ¬ (s.activeNames.contains "SYSTEM" = true) := by
    simpa using hunused
  constructor
  · simp only [registerClient, if_neg h1, if_neg h2]
    rfl
  · simp only [tryRegister, registerClient, if_neg h1, if_neg h2]
    simp only [Server.updClient, setInsert]
    split
    · exact absurd (by assumption) hunused
    · exact List.mem_append_right _ (List.mem_singleton.mpr rfl)

/-- Witness for `c9_system_name_not_reserved` at a fresh default server. -/
theorem c9_witness :
    ((Server.new defaultConfig).clients.length <
      (Server.new defaultConfig).cfg.MaxClients) ∧
    ("SYSTEM" ∉ (Server.new defaultConfig).activeNames) ∧
    ((registerClient (Server.new defaultConfig) (Client.new 1 0) "SYSTEM").isOk = true ∧
      "SYSTEM" ∈ (tryRegister (Server.new defaultConfig) (Client.new 1 0)
        "SYSTEM").1.activeNames) :=
  ⟨by decide, by decide,
    c9_system_name_not_reserved (Server.new defaultConfig) (Client.new 1 0)
      (by decide) (by decide)⟩

/-- Claim C10, confirmed.  Client.Send on a client whose state is not
Active returns the "client not active" connection error and hands nothing
to conn.Write; a write is attempted only on an Active client. -/
theorem c10_send_requires_active :
    (∀ (c : Client) (msg : Message), c.state ≠ ConnectionState.stateActive →
      c.send msg =
        (Except.error { type := ErrorType.errConnection
                        message := "client not active" }, [])) ∧
    (∀ (c : Client) (msg : Message),
      (c.send msg).2 ≠ [] → c.state = ConnectionState.stateActive) := by
  constructor
  · intro c msg h
    simp [Client.send, h]
  · intro c msg h
    by_contra hne
    exact h (by simp [Client.send, hne])

/-- Witness for `c10_send_requires_active` on a freshly connected
(Connecting) client. -/
theorem c10_witness :
    ((Client.new 3 0).state ≠ ConnectionState.stateActive) ∧
    (Client.new 3 0).send (SystemMessage "hello" 1) =
      (Except.error { type := ErrorType.errConnection
                      message := "client not active" }, []) :=
  ⟨by decide,
    c10_send_requires_active.1 (Client.new 3 0) (SystemMessage "hello" 1) (by decide)⟩

/-- Claim C6, confirmed.  ValidateUsername succeeds exactly when the name
is non-empty after trimming, equal to its trimmed form, at most maxLength
bytes long, and made only of ASCII letters, digits, underscores and
spaces; a 32-character name is accepted at the default MaxNameLength and
a 33-character one is rejected. -/
theorem c6_validate_username_iff :
    (∀ (name : List Char) (maxLength : Nat),
      ValidateUsername name maxLength = Except.ok () ↔
        (goTrimSpace name ≠ [] ∧ goTrimSpace name = name ∧
         goLen name ≤ maxLength ∧ name.all validNameChar = true)) ∧
    ValidateUsername (List.replicate 32 'a') defaultConfig.MaxNameLength
      = Except.ok () ∧
    (ValidateUsername (List.replicate 33 'a') defaultConfig.MaxNameLength).isOk
      = false := by
  refine ⟨?_, by decide, by decide⟩
  intro name maxLength
  by_cases h1 : goTrimSpace name = []
  · have hc1 : (goTrimSpace name).length = 0 := by simp [h1]
    simp [ValidateUsername, hc1, h1]
  · have hc1 : ¬ ((goTrimSpace name).length = 0) := by
      simpa [List.length_eq_zero] using h1
    by_cases h2 : goTrimSpace name = name
    · have hn : ¬ (name.length = 0) := by rw [h2] at hc1; exact hc1
      have hne : name ≠ [] := by simpa [List.length_eq_zero] using hn
      by_cases h3 : goLen name ≤ maxLength
      · have hc3 : ¬ (maxLength < goLen name) := Nat.not_lt.mpr h3
        by_cases h4 : name.all validNameChar = true
        · simp [ValidateUsername, hc1, h2, hn, hne, hc3, h3, h4]
        · simp [ValidateUsername, hc1, h2, hn, hne, hc3, h4]
      · have hc3 : maxLength < goLen name := Nat.not_le.mp h3
        simp [ValidateUsername, hc1, h2, hn, hc3, h3]
    · simp [ValidateUsername, hc1, h2]

theorem updClient_clients_length (s : Server) (c : Client) :
    (s.updClient c).clients.length = s.clients.length := by
  simp [Server.updClient]

theorem updClient_keys (s : Server) (c : Client) :
    mapKeys (s.updClient c).clients = mapKeys s.clients := by
  simp only [Server.updClient, mapKeys, List.map_map]
  congr 1
  funext p
  by_cases h : p.2.id = c.id <;> simp [h]

theorem mapInsert_length_le {α : Type} (m : List (String × α)) (k : String) (v : α) :
    (mapInsert m k v).length ≤ m.length + 1 := by
  unfold mapInsert
  split
  · simp
  · simp

theorem mapInsert_length_of_not_mem {α : Type} {m : List (String × α)} {k : String}
    (v : α) (h : k ∉ mapKeys m) : (mapInsert m k v).length = m.length + 1 := by
  unfold mapInsert
  rw [if_neg, List.length_append, List.length_singleton]
  intro hany
  obtain ⟨p, hp, hpk⟩ := List.any_eq_true.mp hany
  exact h (List.mem_map.mpr ⟨p, hp, of_decide_eq_true hpk⟩)

theorem mapDelete_length_le {α : Type} (m : List (String × α)) (k : String) :
    (mapDelete m k).length ≤ m.length :=
  List.length_filter_le _ m

theorem mapDelete_length_lt {α : Type} {m : List (String × α)} {k : String}
    (h : k ∈ mapKeys m) : (mapDelete m k).length < m.length := by
  obtain ⟨p, hp, hpk⟩ := List.mem_map.mp h
  refine Nat.lt_of_le_of_ne (mapDelete_length_le m k) ?_
  intro heq
  unfold mapDelete at heq
  rw [List.filter_length_eq_length] at heq
  have := heq p hp
  simp [hpk] at this

theorem registerClient_ok_inv {s : Server} {c : Client} {name : String}
    {s1 : Server} {c1 : Client}
    (h : registerClient s c name = Except.ok (s1, c1)) :
    s1.cfg = s.cfg ∧ s1.clients.length ≤ s.cfg.MaxClients := by
  unfold registerClient at h
  split at h
  · cases h
  · split at h
    · cases h
    · rename_i h1 h2
      injection h with hp
      injection hp with hs hc
      subst hs
      refine ⟨rfl, ?_⟩
      refine Nat.le_trans (mapInsert_length_le _ _ _) ?_
      rw [updClient_clients_length]
      omega

theorem registerClient_ok_fresh_len {s : Server} {c : Client} {name : String}
    {s1 : Server} {c1 : Client}
    (h : registerClient s c name = Except.ok (s1, c1)) (hfresh : name ∉ mapKeys s.clients) :
    s1.clients.length = s.clients.length + 1 := by
  unfold registerClient at h
  split at h
  · cases h
  · split at h
    · cases h
    · injection h with hp
      injection hp with hs hc
      subst hs
      have hfresh1 : name ∉ mapKeys (s.updClient
          ((c.changeName name).setState ConnectionState.stateAuthenticated)).clients := by
        rw [updClient_keys]; exact hfresh
      calc (mapInsert (s.updClient _).clients
              ((c.changeName name).setState ConnectionState.stateAuthenticated).name
              ((c.changeName name).setState ConnectionState.stateAuthenticated)).length
          = (s.updClient _).clients.length + 1 := mapInsert_length_of_not_mem _ hfresh1
        _ = s.clients.length + 1 := by rw [updClient_clients_length]

theorem handleNameChange_ok_inv {s : Server} {c : Client} {n : List Char} {now : Int}
    {s1 : Server} {c1 : Client}
    (h : handleNameChange s c n now = Except.ok (s1, c1)) :
    s1.cfg = s.cfg ∧ s1.clients.length = s.clients.length := by
  unfold handleNameChange at h
  split at h
  · cases h
  · split at h
    · cases h
    · simp only [] at h
      split at h
      · cases h
      · injection h with hp
        injection hp with hs hc
        subst hs
        refine ⟨rfl, ?_⟩
        simp [broadcastSystemMessage, enqueueBroadcast, Server.updClient]

theorem disconnectClient_cfg (s : Server) (c : Client) (reason : String) (now : Int) :
    ((disconnectClient s c reason now).1).cfg = s.cfg := by
  unfold disconnectClient
  split <;> rfl

theorem disconnectClient_clients_len (s : Server) (c : Client) (reason : String)
    (now : Int) : ((disconnectClient s c reason now).1).clients.length ≤
      s.clients.length := by
  unfold disconnectClient
  split <;>
    · simp only [broadcastSystemMessage, enqueueBroadcast, Server.updClient,
        List.length_map]
      exact Nat.le_trans (mapDelete_length_le _ _) (by simp)

theorem broadcastStep_inv (s : Server) :
    (broadcastStep s).cfg = s.cfg ∧ (broadcastStep s).clients = s.clients := by
  unfold broadcastStep
  split <;> exact ⟨rfl, rfl⟩

theorem stop_returned_inv {s s1 : Server} (h : s.stop = StopOutcome.returned s1) :
    s1.cfg = s.cfg ∧ s1.clients = s.clients := by
  unfold Server.stop at h
  split at h
  · cases h
  · split at h
    · cases h
    · split at h
      · cases h
      · injection h with hs
        subst hs
        exact ⟨rfl, rfl⟩

/-- The internal/server registry never exceeds MaxClients on any reachable
state: every mutating critical section preserves the bound. -/
theorem reachable_capacity {s : Server} (h : Reachable s) :
    s.clients.length ≤ s.cfg.MaxClients := by
  induction h with
  | init cfg => simp [Server.new]
  | startNet _ ih => simpa [Server.startNet] using ih
  | registerOk _ heq ih =>
      obtain ⟨hcfg, hlen⟩ := registerClient_ok_inv heq
      rw [hcfg]
      exact hlen
  | disconnect c reason now _ ih =>
      rw [disconnectClient_cfg]
      exact Nat.le_trans (disconnectClient_clients_len _ _ _ _) ih
  | nameChangeOk _ heq ih =>
      obtain ⟨hcfg, hlen⟩ := handleNameChange_ok_inv heq
      rw [hcfg, hlen]
      exact ih
  | enqueue m _ ih => simpa [enqueueBroadcast] using ih
  | dequeue _ ih =>
      obtain ⟨h1, h2⟩ := broadcastStep_inv _
      rw [h1, h2]
      exact ih
  | stopOk _ heq ih =>
      obtain ⟨h1, h2⟩ := stop_returned_inv heq
      rw [h1, h2]
      exact ih
  | setActive c _ ih => simpa [Server.updClient] using ih
  | touch c now _ ih => simpa [Server.updClient] using ih

theorem registerClient2_ok_inv {s : Server2} {c : Client2} {name : String}
    {s1 : Server2} {c1 : Client2}
    (h : registerClient2 s c name = Except.ok (s1, c1)) :
    s1.cfg = s.cfg ∧ s1.clients.length ≤ s.clients.length + 1 := by
  unfold registerClient2 at h
  split at h
  · cases h
  · injection h with hp
    injection hp with hs hc
    subst hs
    exact ⟨rfl, mapInsert_length_le _ _ _⟩

theorem acceptAndHandle2_inv (s : Server2) (c : Client2) (a : Option String)
    (hpos : 0 < s.cfg.MaxClients) (hle : s.clients.length ≤ s.cfg.MaxClients) :
    (acceptAndHandle2 s c a).cfg = s.cfg ∧
    (acceptAndHandle2 s c a).clients.length ≤ s.cfg.MaxClients := by
  unfold acceptAndHandle2
  split
  · exact ⟨rfl, hle⟩
  · rename_i hcond
    have hlt : s.clients.length < s.cfg.MaxClients := by
      rcases Nat.lt_or_ge s.clients.length s.cfg.MaxClients with hx | hx
      · exact hx
      · exact absurd ⟨hpos, hx⟩ hcond
    cases a with
    | none => exact ⟨rfl, hle⟩
    | some name =>
      dsimp only
      cases hreg : registerClient2 s
          ((c.setState ConnectionState.stateActive).changeName name) name with
      | error e => exact ⟨rfl, hle⟩
      | ok p =>
        obtain ⟨s1, c1⟩ := p
        show s1.cfg = s.cfg ∧ s1.clients.length ≤ s.cfg.MaxClients
        obtain ⟨h1, h2⟩ := registerClient2_ok_inv hreg
        exact ⟨h1, by omega⟩

theorem updClient2_clients_length (s : Server2) (c : Client2) :
    (updClient2 s c).clients.length = s.clients.length := by
  simp [updClient2]

theorem acceptAndHandle2_cfg (s : Server2) (c : Client2) (a : Option String) :
    (acceptAndHandle2 s c a).cfg = s.cfg := by
  unfold acceptAndHandle2
  split
  · rfl
  · cases a with
    | none => rfl
    | some name =>
      dsimp only
      cases hreg : registerClient2 s
          ((c.setState ConnectionState.stateActive).changeName name) name with
      | error e => rfl
      | ok p =>
        obtain ⟨s1, c1⟩ := p
        show s1.cfg = s.cfg
        exact (registerClient2_ok_inv hreg).1

theorem disconnectClient2_inv (s : Server2) (c : Client2) (reason : String) (now : Int) :
    ((disconnectClient2 s c reason now).1).cfg = s.cfg ∧
    ((disconnectClient2 s c reason now).1).clients.length ≤ s.clients.length := by
  unfold disconnectClient2
  refine ⟨rfl, ?_⟩
  simp only [enqueueBroadcast2]
  refine Nat.le_trans (mapDelete_length_le _ _) ?_
  rw [updClient2_clients_length]

theorem foldl_timeout_enqueue2_inv (l : List (String × Client2)) (now : Int)
    (s : Server2) :
    ((l.foldl (fun acc p => enqueueBroadcast2 acc
        (SystemMessage (p.1 ++ " has timeout") now)) s)).cfg = s.cfg ∧
    ((l.foldl (fun acc p => enqueueBroadcast2 acc
        (SystemMessage (p.1 ++ " has timeout") now)) s)).clients = s.clients := by
  induction l generalizing s with
  | nil => exact ⟨rfl, rfl⟩
  | cons hd tl ih => simpa [enqueueBroadcast2] using ih _

theorem cleanInactiveStep2_inv (s : Server2) (now : Int) :
    (cleanInactiveStep2 s now).cfg = s.cfg ∧
    (cleanInactiveStep2 s now).clients.length ≤ s.clients.length := by
  unfold cleanInactiveStep2
  obtain ⟨h1, h2⟩ := foldl_timeout_enqueue2_inv
    (s.clients.filter fun p =>
      p.2.state = ConnectionState.stateActive &&
        s.cfg.ClientTimeout < now - p.2.activity) now _
  rw [h1, h2]
  exact ⟨rfl, List.length_filter_le _ _⟩

theorem handleNameChange2_ok_inv {s : Server2} {c : Client2} {n : List Char}
    {now : Int} {s1 : Server2} {c1 : Client2}
    (hmem : (c.name, c) ∈ s.clients)
    (h : handleNameChange2 s c n now = Except.ok (s1, c1)) :
    s1.cfg = s.cfg ∧ s1.clients.length ≤ s.clients.length := by
  unfold handleNameChange2 at h
  split at h
  · cases h
  · split at h
    · cases h
    · simp only [] at h
      split at h
      · cases h
      · injection h with hp
        injection hp with hs hc
        subst hs
        refine ⟨rfl, ?_⟩
        simp only [enqueueBroadcast2]
        have hkey : c.name ∈ mapKeys s.clients := List.mem_map.mpr ⟨(c.name, c), hmem, rfl⟩
        have hdel := mapDelete_length_lt (m := s.clients) hkey
        exact Nat.le_trans (mapInsert_length_le _ _ _) (by omega)

theorem stop2_inv (s : Server2) :
    ((s.stop).1).cfg = s.cfg ∧ ((s.stop).1).clients.length ≤ s.clients.length := by
  unfold Server2.stop
  split <;> simp

theorem start2_ok_inv {s s1 : Server2} (h : s.start = Except.ok s1) :
    s1.cfg = s.cfg ∧ s1.clients = s.clients := by
  unfold Server2.start at h
  split at h
  · cases h
  · injection h with hs
    subst hs
    exact ⟨rfl, rfl⟩

/-- The draft registry never exceeds a positive MaxClients on any draft
reachable state (part 002 treats MaxClients = 0 as unlimited, so the
bound is conditional on positivity; the executable always runs with the
default MaxClients = 10). -/
theorem reachable2_capacity {s : Server2} (h : Reachable2 s) :
    0 < s.cfg.MaxClients → s.clients.length ≤ s.cfg.MaxClients := by
  induction h with
  | init cfg => intro _; simp [Server2.new]
  | startOk _ heq ih =>
      obtain ⟨h1, h2⟩ := start2_ok_inv heq
      rw [h1, h2]
      exact ih
  | accept c a _ ih =>
      intro hpos
      rw [acceptAndHandle2_cfg] at hpos ⊢
      exact (acceptAndHandle2_inv _ c a hpos (ih hpos)).2
  | disconnect c reason now _ ih =>
      obtain ⟨h1, h2⟩ := disconnectClient2_inv _ c reason now
      rw [h1]
      intro hpos
      exact Nat.le_trans h2 (ih hpos)
  | clean now _ ih =>
      obtain ⟨h1, h2⟩ := cleanInactiveStep2_inv _ now
      rw [h1]
      intro hpos
      exact Nat.le_trans h2 (ih hpos)
  | nameChangeOk2 _ hmem heq ih =>
      obtain ⟨h1, h2⟩ := handleNameChange2_ok_inv hmem heq
      rw [h1]
      intro hpos
      exact Nat.le_trans h2 (ih hpos)
  | enqueue m _ ih => simpa [enqueueBroadcast2] using ih
  | dequeue _ ih =>
      unfold broadcastStep2
      split
      · exact ih
      · simpa using ih
  | stop _ ih =>
      obtain ⟨h1, h2⟩ := stop2_inv _
      rw [h1]
      intro hpos
      exact Nat.le_trans h2 (ih hpos)

/-- Claim C8, confirmed.  On every reachable internal/server state the
registry has at most MaxClients sessions; registerClient at capacity
fails with the "server is full" connection error (handleConnection then
closes the connection without registering); and because registrations are
serialized under clientsMu, of two connections racing for the last free
slot only the first succeeds — the second registration fails.  The draft
acceptor (part 002), whose accept path is serialized by
`handlerReady.Wait()`, keeps the same bound whenever MaxClients is
positive (it treats MaxClients = 0 as unlimited) and drops an arriving
connection at capacity without registering anything. -/
theorem c8_capacity_ceiling :
    (∀ s : Server, Reachable s → s.clients.length ≤ s.cfg.MaxClients) ∧
    (∀ (s : Server) (c : Client) (name : String),
      s.cfg.MaxClients ≤ s.clients.length →
      registerClient s c name =
        Except.error { type := ErrorType.errConnection
                       message := "server is full" }) ∧
    (∀ (s s1 : Server) (c1 c1' c2 : Client) (n1 n2 : String),
      s.cfg.MaxClients = s.clients.length + 1 →
      n1 ∉ mapKeys s.clients →
      registerClient s c1 n1 = Except.ok (s1, c1') →
      registerClient s1 c2 n2 =
        Except.error { type := ErrorType.errConnection
                       message := "server is full" }) ∧
    (∀ s2 : Server2, Reachable2 s2 → 0 < s2.cfg.MaxClients →
      s2.clients.length ≤ s2.cfg.MaxClients) ∧
    (∀ (s2 : Server2) (c : Client2) (a : Option String),
      0 < s2.cfg.MaxClients → s2.cfg.MaxClients ≤ s2.clients.length →
      acceptAndHandle2 s2 c a = s2) := by
  refine ⟨fun s h => reachable_capacity h, ?_, ?_,
    fun s2 h => reachable2_capacity h, ?_⟩
  · intro s c name h
    unfold registerClient
    rw [if_pos h]
  · intro s s1 c1 c1' c2 n1 n2 hmax hfresh hreg
    have hlen := registerClient_ok_fresh_len hreg hfresh
    have hcfg := (registerClient_ok_inv hreg).1
    unfold registerClient
    rw [if_pos ?hc]
    case hc => rw [hcfg, hlen]; omega
  · intro s2 c a hpos hfull
    unfold acceptAndHandle2
    rw [if_pos ⟨hpos, hfull⟩]

/-- Witness for `c8_capacity_ceiling`: the initial default server; a
register attempt on a zero-capacity server; two registrations racing for
the single slot of a one-slot server; the initial draft server; and a
draft accept on a full one-slot draft server. -/
theorem c8_witness :
    (Server.new defaultConfig).clients.length ≤
      (Server.new defaultConfig).cfg.MaxClients ∧
    registerClient (Server.new { defaultConfig with MaxClients := 0 })
      (Client.new 1 0) "Zed" =
      Except.error { type := ErrorType.errConnection
                     message := "server is full" } ∧
    registerClient
      (tryRegister (Server.new { defaultConfig with MaxClients := 1 })
        (Client.new 1 0) "A").1 (Client.new 2 0) "B" =
      Except.error { type := ErrorType.errConnection
                     message := "server is full" } ∧
    (Server2.new defaultConfig).clients.length ≤
      (Server2.new defaultConfig).cfg.MaxClients ∧
    acceptAndHandle2
      (acceptAndHandle2 (Server2.new { defaultConfig with MaxClients := 1 })
        (Client2.new 1 0) (some "A")) (Client2.new 2 0) (some "B") =
      acceptAndHandle2 (Server2.new { defaultConfig with MaxClients := 1 })
        (Client2.new 1 0) (some "A") :=
  ⟨c8_capacity_ceiling.1 _ (Reachable.init defaultConfig),
   c8_capacity_ceiling.2.1 _ _ _ (by decide),
   c8_capacity_ceiling.2.2.1 (Server.new { defaultConfig with MaxClients := 1 })
     ((tryRegister (Server.new { defaultConfig with MaxClients := 1 })
       (Client.new 1 0) "A").1)
     (Client.new 1 0)
     ((tryRegister (Server.new { defaultConfig with MaxClients := 1 })
       (Client.new 1 0) "A").2)
     (Client.new 2 0) "A" "B" (by decide) (by decide) (by decide),
   c8_capacity_ceiling.2.2.2.1 _ (Reachable2.init defaultConfig) (by decide),
   c8_capacity_ceiling.2.2.2.2 _ (Client2.new 2 0) (some "B") (by decide) (by decide)⟩

end NetCat
